import Mathlib

/-!
Shallow embedding of the watch-driven Kubernetes cache of
`controller-runtime-node` (src/DefaultKubeClient.ts, src/CachedKubeClient.ts,
src/KubeClient.ts, src/KubernetesError.ts), together with theorems settling
the behavioural claims about it.

Conventions of the embedding:
* JavaScript objects become Lean structures; fields that the TypeScript
  interfaces mark optional (`?`) become `Option`.
* JavaScript dictionaries (`{[k: string]: V}`) become functions
  `String → Option V` (`none` models an absent key / `undefined`).
* `has(x)` from `@0cfg/utils-common` is `x !== undefined && x !== null`,
  i.e. `Option.isSome` in the embedding.
* Callbacks are identified by opaque numeric ids (`Nat`); invoking the
  listeners of a type is recorded as a list of notification records, in
  invocation order.
* Thrown exceptions become `Except` errors; a JavaScript `TypeError`
  raised by indexing into `undefined` is modelled by `CacheThrow.typeError`.
-/

namespace ControllerRuntime

/-- Metadata of a Kubernetes object. `KubeClient.ts` requires `name`
(interface `V1ObjectMeta extends om { name: string }`); `namespace` and
`resourceVersion` stay optional as in the upstream `V1ObjectMeta`.
The field `ns` models `metadata.namespace` (a Lean keyword). -/
structure V1ObjectMeta where
  ns : Option String
  name : String
  resourceVersion : Option String
deriving DecidableEq

/-- A Kubernetes object as required by `KubeClient.ts`
(`apiVersion`, `kind` and `metadata` are mandatory there). -/
structure KubernetesObject where
  apiVersion : String
  kind : String
  metadata : V1ObjectMeta
deriving DecidableEq

/-- Embeds `ObjectKind<T> = Pick<T, 'apiVersion' | 'kind'>` from `KubeClient.ts`. -/
structure ObjectKind where
  apiVersion : String
  kind : String
deriving DecidableEq

/-- Projection of a full object to its `ObjectKind` part (structural
typing in TypeScript lets a full object be used where `ObjectKind` is
expected). -/
def KubernetesObject.toKind (o : KubernetesObject) : ObjectKind :=
  ⟨o.apiVersion, o.kind⟩

/-- JavaScript `Array.prototype.join` renders `undefined`/`null`
elements as the empty string. -/
def jsJoinElem : Option String → String
  | some s => s
  | none => ""

/-- Splitting a character list at every occurrence of `sep`, the
semantics of JavaScript `String.prototype.split` with a one-character
separator (restricted to the characters of the string). -/
def splitOnChar (sep : Char) : List Char → List (List Char)
  | [] => [[]]
  | c :: cs =>
    match splitOnChar sep cs with
    | [] => [[]]
    | h :: t => if c = sep then [] :: h :: t else (c :: h) :: t

/-- JavaScript `s.split(sep)` for a one-character separator `sep`. -/
def jsSplit (s : String) (sep : Char) : List String :=
  (splitOnChar sep s.toList).map (fun l => ⟨l⟩)

/-- Embeds `groupVersionKindKey` (DefaultKubeClient.ts line 184):
`[object.apiVersion, object.kind].join('/')`. -/
def groupVersionKindKey (object : ObjectKind) : String :=
  object.apiVersion ++ "/" ++ object.kind

/-- Embeds `parseGroupVersionKind` (DefaultKubeClient.ts lines 185-191):
`const s = gvk.split('/'); return {apiVersion: s[0], kind: s[1]}`.
Indexing past the end yields `undefined` in JavaScript; the joined keys
fed to this function always contain the separator, so `s[1]` exists on
every call site; the out-of-range default is rendered as `""`. -/
def parseGroupVersionKind (gvk : String) : ObjectKind :=
  let s := jsSplit gvk '/'
  ⟨s.getD 0 "", s.getD 1 ""⟩

/-- Embeds `namespacedName` (DefaultKubeClient.ts line 192):
`[object.metadata.namespace, object.metadata.name].join('/')`. -/
def namespacedName (object : KubernetesObject) : String :=
  jsJoinElem object.metadata.ns ++ "/" ++ object.metadata.name

/-- Embeds `resourceVersionExpiredReason` (DefaultKubeClient.ts line 197). -/
def resourceVersionExpiredReason : String := "Expired"

/-- Embeds `resourceVersionExpiredCode` (DefaultKubeClient.ts line 202). -/
def resourceVersionExpiredCode : Nat := 410

/-- Embeds the `KubernetesEventType` enum from `KubeClient.ts`. -/
inductive KubernetesEventType where
  | ADDED
  | MODIFIED
  | DELETED
  | BOOKMARK
  | ERROR
deriving DecidableEq

/-- Relevant fields of `V1Status` (delivered as the payload of `ERROR`
watch events); all three are optional on the upstream type. -/
structure V1Status where
  code : Option Nat
  reason : Option String
  message : Option String
deriving DecidableEq

/-- A watch event as delivered to the callback of `KubeClient.watch`:
an event type together with its payload. Per the documentation of
`KubernetesEventType` in `KubeClient.ts`, the payload is the object for
`ADDED`/`MODIFIED`/`DELETED`/`BOOKMARK` and a `V1Status` for `ERROR`. -/
inductive WatchEvent where
  | added (o : KubernetesObject)
  | modified (o : KubernetesObject)
  | deleted (o : KubernetesObject)
  | bookmark (o : KubernetesObject)
  | error (status : V1Status)
deriving DecidableEq

/-- Event type of a watch event. -/
def WatchEvent.type : WatchEvent → KubernetesEventType
  | .added _ => .ADDED
  | .modified _ => .MODIFIED
  | .deleted _ => .DELETED
  | .bookmark _ => .BOOKMARK
  | .error _ => .ERROR

/-- Payload object of a data event (`ADDED`/`MODIFIED`/`DELETED`),
`none` for the other event types. -/
def WatchEvent.dataObj? : WatchEvent → Option KubernetesObject
  | .added o => some o
  | .modified o => some o
  | .deleted o => some o
  | _ => none

/-- Exceptions thrown by `DefaultCache` methods: `NotFound` (thrown by
`get`), the generic `Error` thrown by `addListener` after start, and the
JavaScript `TypeError` raised when indexing into `undefined`. -/
inductive CacheThrow where
  | notFound
  | alreadyStarted
  | typeError
deriving DecidableEq

/-- Messages written with `console.error` in the watch callback. -/
inductive WatchLog where
  | unknownEventType
  | watchError
deriving DecidableEq

/-- The per-type index `this.cache[gvk]`: namespaced name → snapshot. -/
def TypeIndex : Type := String → Option KubernetesObject

/-- The empty per-type index (`{}` in the source). -/
def TypeIndex.empty : TypeIndex := fun _ => none

/-- Inner assignment `m[namespacedName(obj)] = obj` shared by
`recordObjectAdded` and `recordObjectModified`
(DefaultKubeClient.ts lines 339-347). -/
def TypeIndex.insertObj (m : TypeIndex) (obj : KubernetesObject) : TypeIndex :=
  fun n => if n = namespacedName obj then some obj else m n

/-- Inner deletion `delete m[namespacedName(obj)]` from
`recordObjectDeleted` (DefaultKubeClient.ts lines 349-351). -/
def TypeIndex.eraseObj (m : TypeIndex) (obj : KubernetesObject) : TypeIndex :=
  fun n => if n = namespacedName obj then none else m n

/-- The two-level cache `this.cache`: gvk key → per-type index
(absent key = the type was never registered). -/
def CacheData : Type := String → Option TypeIndex

/-- Updating one gvk entry of the two-level cache. -/
def CacheData.setType (c : CacheData) (gvk : String) (m : TypeIndex) : CacheData :=
  fun g => if g = gvk then some m else c g

/-- Lookup of a snapshot through both levels of the cache. -/
def CacheData.lookup (c : CacheData) (gvk n : String) : Option KubernetesObject :=
  (c gvk).bind fun m => m n

/-- Embeds `DefaultCache.recordObjectAdded` (DefaultKubeClient.ts lines 339-342):
`this.cache[groupVersionKindKey(obj)][namespacedName(obj)] = obj`.
When `this.cache[groupVersionKindKey(obj)]` is `undefined`, indexing into
it raises a `TypeError`. -/
def recordObjectAdded (c : CacheData) (obj : KubernetesObject) :
    Except CacheThrow CacheData :=
  match c (groupVersionKindKey obj.toKind) with
  | none => .error .typeError
  | some m => .ok (c.setType (groupVersionKindKey obj.toKind) (m.insertObj obj))

/-- Embeds `DefaultCache.recordObjectModified` (DefaultKubeClient.ts lines
344-347): identical assignment to `recordObjectAdded`. -/
def recordObjectModified (c : CacheData) (obj : KubernetesObject) :
    Except CacheThrow CacheData :=
  match c (groupVersionKindKey obj.toKind) with
  | none => .error .typeError
  | some m => .ok (c.setType (groupVersionKindKey obj.toKind) (m.insertObj obj))

/-- Embeds `DefaultCache.recordObjectDeleted` (DefaultKubeClient.ts lines
349-351): `delete this.cache[groupVersionKindKey(obj)][namespacedName(obj)]`. -/
def recordObjectDeleted (c : CacheData) (obj : KubernetesObject) :
    Except CacheThrow CacheData :=
  match c (groupVersionKindKey obj.toKind) with
  | none => .error .typeError
  | some m => .ok (c.setType (groupVersionKindKey obj.toKind) (m.eraseObj obj))

/-- Synchronization metadata per gvk (`this.metadata[gvk]`,
DefaultKubeClient.ts lines 217-222). -/
structure TypeMetadata where
  lastResourceVersion : Option String
  resourcePath : String
deriving DecidableEq

/-- The mutable fields of a `DefaultCache` instance (DefaultKubeClient.ts
lines 211-223). Callbacks are identified by `Nat` ids; `cacheSync` models
`has(this.cacheSync)`, which becomes true exactly when `start()` runs. -/
structure DefaultCacheState where
  listeners : String → Option (List Nat)
  cache : CacheData
  metadata : String → Option TypeMetadata
  cacheSync : Bool

/-- The assignment `this.metadata[gvk].lastResourceVersion = rv`; raises a
`TypeError` when `this.metadata[gvk]` is `undefined`. -/
def setLastResourceVersion (md : String → Option TypeMetadata) (gvk : String)
    (rv : Option String) : Except CacheThrow (String → Option TypeMetadata) :=
  match md gvk with
  | none => .error .typeError
  | some m => .ok (fun g => if g = gvk then some { m with lastResourceVersion := rv } else md g)

/-- Record of one listener invocation `l(type, apiObject, watchObject)`
(DefaultKubeClient.ts lines 305-306). `tokenAtNotify` observes the value
of `this.metadata[gvk].lastResourceVersion` at the moment of the call. -/
structure Notification where
  listener : Nat
  type : KubernetesEventType
  obj : KubernetesObject
  tokenAtNotify : Option String
deriving DecidableEq

/-- Result of one invocation of the watch callback: the state afterwards,
whether `req.abort()` was called, the listener invocations made (in
order), and any `console.error` output. -/
structure StepResult where
  state : DefaultCacheState
  aborted : Bool
  notifications : List Notification
  log : Option WatchLog

/-- The watch callback installed by `DefaultCache.startWatch` for type
`gvk` (DefaultKubeClient.ts lines 276-307), as a function of the event
received. The `switch` dispatches on the event type: `ADDED`, `MODIFIED`
and `DELETED` update the cache through the record methods and then fall
through to the resume-token advance (lines 301-303, guarded by
`has(apiObject) && has(apiObject.metadata)`, which always holds here
because the embedded object type makes both mandatory) and to the
listener loop (lines 305-306); `ERROR` is special-cased (lines 287-296);
`BOOKMARK` has no case and hits the `default` branch (lines 297-299),
as does any unrecognized type. -/
def processWatchEvent (gvk : String) (s : DefaultCacheState) :
    WatchEvent → Except CacheThrow StepResult
  | .added o =>
    match recordObjectAdded s.cache o with
    | .error err => .error err
    | .ok c' =>
      match setLastResourceVersion s.metadata gvk o.metadata.resourceVersion with
      | .error err => .error err
      | .ok md' =>
        match s.listeners gvk with
        | none => .error .typeError
        | some ls =>
          .ok ⟨{ s with cache := c', metadata := md' }, false,
            ls.map (fun l => ⟨l, .ADDED, o, (md' gvk).bind TypeMetadata.lastResourceVersion⟩),
            none⟩
  | .modified o =>
    match recordObjectModified s.cache o with
    | .error err => .error err
    | .ok c' =>
      match setLastResourceVersion s.metadata gvk o.metadata.resourceVersion with
      | .error err => .error err
      | .ok md' =>
        match s.listeners gvk with
        | none => .error .typeError
        | some ls =>
          .ok ⟨{ s with cache := c', metadata := md' }, false,
            ls.map (fun l => ⟨l, .MODIFIED, o, (md' gvk).bind TypeMetadata.lastResourceVersion⟩),
            none⟩
  | .deleted o =>
    match recordObjectDeleted s.cache o with
    | .error err => .error err
    | .ok c' =>
      match setLastResourceVersion s.metadata gvk o.metadata.resourceVersion with
      | .error err => .error err
      | .ok md' =>
        match s.listeners gvk with
        | none => .error .typeError
        | some ls =>
          .ok ⟨{ s with cache := c', metadata := md' }, false,
            ls.map (fun l => ⟨l, .DELETED, o, (md' gvk).bind TypeMetadata.lastResourceVersion⟩),
            none⟩
  | .bookmark _ => .ok ⟨s, false, [], some .unknownEventType⟩
  | .error status =>
    if status.code = some resourceVersionExpiredCode
        ∧ status.reason = some resourceVersionExpiredReason then
      match setLastResourceVersion s.metadata gvk none with
      | .error err => .error err
      | .ok md' => .ok ⟨{ s with metadata := md' }, true, [], none⟩
    else
      .ok ⟨s, false, [], some .watchError⟩

/-- One step of processing a stream of events through the watch callback;
an exception thrown by an earlier event stops the processing. -/
def watchStep (gvk : String) (acc : Except CacheThrow DefaultCacheState)
    (e : WatchEvent) : Except CacheThrow DefaultCacheState :=
  match acc with
  | .error err => .error err
  | .ok s => (processWatchEvent gvk s e).map StepResult.state

/-- Processing a whole finite sequence of events delivered on the stream
of type `gvk`, in order. -/
def processWatchEvents (gvk : String) (s : DefaultCacheState)
    (events : List WatchEvent) : Except CacheThrow DefaultCacheState :=
  events.foldl (watchStep gvk) (.ok s)

/-- Embeds `has` from `@0cfg/utils-common`: `x !== undefined && x !== null`. -/
def has {α : Type} : Option α → Bool := Option.isSome

/-- Embeds `DefaultCache.start` (DefaultKubeClient.ts lines 230-232):
`this.cacheSync = this.startSync()` — assigning the promise makes
`has(this.cacheSync)` true from then on. -/
def DefaultCache.start (s : DefaultCacheState) : DefaultCacheState :=
  { s with cacheSync := true }

/-- Embeds `DefaultCache.addListener` (DefaultKubeClient.ts lines 234-244):
throws when the cache was already started; otherwise creates the
`listeners[gvk]`/`cache[gvk]` entries when absent and pushes the callback
onto `listeners[gvk]`. -/
def DefaultCache.addListener (s : DefaultCacheState) (object : ObjectKind)
    (cb : Nat) : Except CacheThrow DefaultCacheState :=
  if s.cacheSync then .error .alreadyStarted
  else
    let gvk := groupVersionKindKey object
    match s.listeners gvk with
    | none =>
      .ok { s with
        listeners := fun g => if g = gvk then some [cb] else s.listeners g,
        cache := s.cache.setType gvk TypeIndex.empty }
    | some ls =>
      .ok { s with
        listeners := fun g => if g = gvk then some (ls ++ [cb]) else s.listeners g }

/-- Embeds `DefaultCache.get` (DefaultKubeClient.ts lines 246-257). The guard at
line 253 is, verbatim,
`!has(this.cache[gvk] || !has(this.cache[gvk][namespacedName(spec)]))`
(note the misplaced parenthesis: the intended second `has` call sits
INSIDE the first one's argument). Its JavaScript evaluation:
* when `this.cache[gvk]` is a (truthy) object, `||` short-circuits to it,
  `has` is true, the negation is false — `NotFound` is not thrown no
  matter whether the key is present, and `Object.assign(spec, entry)`
  either copies the snapshot (overwriting every embedded field) or, when
  the entry is `undefined`, is a no-op that leaves `spec` unchanged;
* when `this.cache[gvk]` is `undefined` (falsy), the right operand
  evaluates `this.cache[gvk][namespacedName(spec)]`, which indexes into
  `undefined` and raises a `TypeError` before `NotFound` can be thrown.
So `throw new NotFound()` at line 254 is unreachable. -/
def DefaultCache.get (c : CacheData) (spec : KubernetesObject) :
    Except CacheThrow KubernetesObject :=
  let gvk := groupVersionKindKey spec.toKind
  match c gvk with
  | none => .error .typeError
  | some m =>
    match m (namespacedName spec) with
    | some entry => .ok entry
    | none => .ok spec

/-- Resolution state of a JavaScript promise. -/
inductive PromiseState where
  | pending
  | resolved
  | rejected
deriving DecidableEq

/-- Outcome of one registered type's first `initializeCache` list call
(the `await this.client.list(...)` inside `startWatch`'s first round). -/
inductive FirstListOutcome where
  | succeeded
  | failed
  | pending
deriving DecidableEq

/-- Embeds `DefaultCache.startSync` (DefaultKubeClient.ts lines 263-266):
`Promise.all(Object.keys(this.cache).map(gvk => this.startWatch(gvk)))`.
`Promise.all` rejects once any constituent promise rejects, stays pending
while none has rejected and some is still pending, and resolves once all
have resolved — here the constituent promises are the per-type
`startWatch` calls, whose first await is the initial list. -/
def startSyncState (outcomes : List FirstListOutcome) : PromiseState :=
  if outcomes.contains .failed then .rejected
  else if outcomes.contains .pending then .pending
  else .resolved

/-- Embeds `DefaultCache.waitForSync` (DefaultKubeClient.ts lines 259-261):
`return Promise.resolve(undefined)` — an already-resolved promise,
independent of the synchronization state (`this.cacheSync` is not
consulted). -/
def DefaultCache.waitForSync (_outcomes : List FirstListOutcome) : PromiseState :=
  .resolved

/-- Readiness condition stated by the claim about `waitForSync`: every
registered resource type has completed its first successful full list. -/
def allFirstListsSucceeded (outcomes : List FirstListOutcome) : Bool :=
  outcomes.all (· = .succeeded)

/-- The re-entry guard of `DefaultCache.startWatch` (DefaultKubeClient.ts
line 269): the full list (`initializeCache`) is performed exactly when
`!has(this.metadata[gvk]) || has(this.metadata[gvk].lastResourceVersion)`
holds, i.e. when the metadata entry is absent or the stored resume token
is PRESENT. -/
def startWatchPerformsList (md : Option TypeMetadata) : Bool :=
  match md with
  | none => true
  | some m => (has m.lastResourceVersion)

/-- The query parameters `startWatch` passes to `KubeClient.watch`
(DefaultKubeClient.ts lines 273-275). -/
structure WatchQuery where
  allowWatchBookmarks : Bool
  resourceVersion : Option String
deriving DecidableEq

/-- Query with which `startWatch` opens the stream: `allowWatchBookmarks: false` and
the stored resume token (DefaultKubeClient.ts lines 273-275); with
bookmarks disabled the server never delivers `BOOKMARK` events, so the
events carrying a resource instance are exactly `ADDED`, `MODIFIED` and
`DELETED`. -/
def startWatchQuery (md : Option TypeMetadata) : WatchQuery :=
  ⟨false, md.bind TypeMetadata.lastResourceVersion⟩

/-- Result of the remote full list `this.client.list(apiVersion, kind)`:
the items and the list's resource version (the source asserts both
`list.metadata!` and `.resourceVersion!` non-null). -/
structure ListResult where
  items : List KubernetesObject
  resourceVersion : String
deriving DecidableEq

/-- Embeds `DefaultCache.initializeCache` (DefaultKubeClient.ts lines 325-337).
The remote calls are parameters: `listResult` is what
`this.client.list(apiVersion, kind)` returned and `path` what
`getAPIResourcePath` resolved. It stores the metadata entry and then runs
`list.items.forEach(o => { this.cache[groupVersionKindKey(o)] = {};
this.recordObjectAdded(o); })` — note the reset of the type's index is
INSIDE the `forEach`, executed once per item. -/
def initializeCache (s : DefaultCacheState) (gvk : String)
    (listResult : ListResult) (path : String) :
    Except CacheThrow DefaultCacheState :=
  let md' : String → Option TypeMetadata :=
    fun g => if g = gvk then some ⟨some listResult.resourceVersion, path⟩ else s.metadata g
  (listResult.items.foldlM
    (fun c o => recordObjectAdded (c.setType (groupVersionKindKey o.toKind) TypeIndex.empty) o)
    s.cache).map
    (fun c' => { s with cache := c', metadata := md' })

/-- Body of a raw Kubernetes API error (`KubernetesError.ts` lines 35-41). -/
structure ErrorBody where
  code : Option Nat
  reason : Option String
  message : Option String
deriving DecidableEq

/-- An arbitrary thrown value as inspected by the error classifiers: only
its (possibly absent) `body` property matters. -/
structure ErrorValue where
  body : Option ErrorBody
deriving DecidableEq

/-- Embeds `isKubernetesError` (KubernetesError.ts lines 43-46):
`has(body) && [body.code, body.reason, body.message].every(has)`. -/
def isKubernetesError (e : ErrorValue) : Bool :=
  match e.body with
  | none => false
  | some b => has b.code && has b.reason && has b.message

/-- Embeds `isNotFoundError` (KubernetesError.ts lines 51-53):
`isKubernetesError(err) && err.body.code === 404`. -/
def isNotFoundError (e : ErrorValue) : Bool :=
  isKubernetesError e &&
    (match e.body with
     | some b => decide (b.code = some 404)
     | none => false)

/-- Embeds `CachedKubeClient.get` (CachedKubeClient.ts lines 17-33): try the
cache's read; on an `isNotFoundError` failure fall back to the remote
read (`super.get`), otherwise rethrow. The two reads are parameters
(`cacheResult`, `remoteResult`); the returned flag records whether the
remote read was performed. -/
def CachedKubeClient.get
    (cacheResult remoteResult : Except ErrorValue KubernetesObject) :
    Except ErrorValue KubernetesObject × Bool :=
  match cacheResult with
  | .ok v => (.ok v, false)
  | .error e =>
    if isNotFoundError e then (remoteResult, true)
    else (.error e, false)

/-- Fixture: a pod named `a` in namespace `default`. -/
def podA : KubernetesObject := ⟨"v1", "Pod", ⟨some "default", "a", some "7"⟩⟩

/-- Fixture: a pod named `b` in namespace `default`. -/
def podB : KubernetesObject := ⟨"v1", "Pod", ⟨some "default", "b", some "8"⟩⟩

/-- Fixture: a cache state with one registered type `v1/Pod` (one
listener, empty index), before any synchronization. -/
def fixtureState : DefaultCacheState where
  listeners := fun g => if g = "v1/Pod" then some [0] else none
  cache := fun g => if g = "v1/Pod" then some TypeIndex.empty else none
  metadata := fun _ => none
  cacheSync := false

/-- Fixture: the cache data after `v1/Pod` holds exactly `podA`. -/
def fixtureCache : CacheData :=
  fun g => if g = "v1/Pod" then some (TypeIndex.empty.insertObj podA) else none

/-- Fixture: the registered state after `start()` and a first list that
recorded the stream path but whose resume token is cleared. -/
def fixtureStateSynced : DefaultCacheState where
  listeners := fun g => if g = "v1/Pod" then some [0] else none
  cache := fun g => if g = "v1/Pod" then some TypeIndex.empty else none
  metadata := fun g => if g = "v1/Pod" then some ⟨none, "/api/v1/pods"⟩ else none
  cacheSync := true

/-- The last event of `events` whose payload is a resource instance with
namespaced name `k` (the claim's "latest event per namespace/name key"). -/
def latestDataEventFor (events : List WatchEvent) (k : String) : Option WatchEvent :=
  events.reverse.find? (fun e => decide (e.dataObj?.map namespacedName = some k))

/-- The claim's replay formula: the index obtained by keeping, per
namespaced name, only the latest event — its object for `ADDED` and
`MODIFIED`, absence for `DELETED` or when no event mentions the key. -/
def replayLatest (events : List WatchEvent) : TypeIndex := fun k =>
  match latestDataEventFor events k with
  | some (.added o) => some o
  | some (.modified o) => some o
  | _ => none

/-- Generalization of `replayLatest` over an arbitrary starting index:
keys untouched by any event keep their prior entry. -/
def replayLatestFrom (m : TypeIndex) (events : List WatchEvent) : TypeIndex := fun k =>
  match latestDataEventFor events k with
  | some (.added o) => some o
  | some (.modified o) => some o
  | some (.deleted _) => none
  | _ => m k

/-- Fixture: the event sequence `ADD(a,v1)`, `MOD(a,v2)`, `ADD(b,v1)`,
`DELETE(a)` used by the convergence example. -/
def fixtureEvents : List WatchEvent :=
  [.added podA,
   .modified ⟨"v1", "Pod", ⟨some "default", "a", some "9"⟩⟩,
   .added podB,
   .deleted ⟨"v1", "Pod", ⟨some "default", "a", some "10"⟩⟩]

/-- Whether a processing result is a normal completion. -/
def isOkResult (r : Except CacheThrow DefaultCacheState) : Bool :=
  match r with
  | .ok _ => true
  | .error _ => false

/-- Snapshot lookup through a processing result (`none` on a thrown
exception). -/
def lookupOfResult (r : Except CacheThrow DefaultCacheState) (gvk n : String) :
    Option KubernetesObject :=
  match r with
  | .ok s => s.cache.lookup gvk n
  | .error _ => none

/-- C1: the claim says `waitForSync` resolves only after every registered
type's first full list succeeded and never resolves when one fails. The
code returns `Promise.resolve(undefined)`: at the state where the single
registered type's first list FAILED, the promise returned by
`waitForSync` is already resolved even though the readiness condition is
false — while the internal `startSync` promise (which `waitForSync`
ignores) is rejected. -/
theorem waitForSync_resolves_despite_failed_first_list :
    DefaultCache.waitForSync [FirstListOutcome.failed] = PromiseState.resolved
    ∧ allFirstListsSucceeded [FirstListOutcome.failed] = false
    ∧ startSyncState [FirstListOutcome.failed] = PromiseState.rejected := by
  decide

/-- C2: the claim says a successful full list leaves the type's index
holding exactly the listed instances. Listing `[podA, podB]` for
`v1/Pod` completes normally, but the per-item reset
`this.cache[groupVersionKindKey(o)] = {}` inside the `forEach` wipes the
entries added for earlier items: `podA` is absent afterwards and only the
last item `podB` survives. -/
theorem initializeCache_drops_all_but_last_item :
    isOkResult
        (initializeCache fixtureState "v1/Pod" ⟨[podA, podB], "42"⟩ "/api/v1/pods") = true
    ∧ lookupOfResult
        (initializeCache fixtureState "v1/Pod" ⟨[podA, podB], "42"⟩ "/api/v1/pods")
        "v1/Pod" "default/a" = none
    ∧ lookupOfResult
        (initializeCache fixtureState "v1/Pod" ⟨[podA, podB], "42"⟩ "/api/v1/pods")
        "v1/Pod" "default/b" = some podB := by
  decide

/-- C3: the claim says stream re-entry lists afresh exactly when the
stored resume token was cleared, and reopens directly when the token is
present. The guard `!has(this.metadata[gvk]) ||
has(this.metadata[gvk].lastResourceVersion)` does the OPPOSITE on both
re-entry cases: with the token present (`"5"`) it performs the full list,
and with the token cleared it skips the list. (Only the first-ever entry,
metadata absent, lists as the claim expects.) -/
theorem startWatch_relist_condition_inverted :
    startWatchPerformsList (some ⟨some "5", "/api/v1/pods"⟩) = true
    ∧ startWatchPerformsList (some ⟨none, "/api/v1/pods"⟩) = false
    ∧ startWatchPerformsList none = true := by
  decide

/-- C4: the claim says `get` fails with not-found for an unregistered
type or an absent key, and otherwise returns the snapshot. Because of the
misplaced parenthesis in the guard, on the cache holding only `podA`
under `v1/Pod`: a lookup of the absent key `default/zzz` completes
normally with the passed object unchanged (no `NotFound`), a lookup on
the unregistered type `v1/Service` raises a `TypeError` (not `NotFound`),
and only the present-key lookup behaves as claimed. -/
theorem get_never_throws_notFound :
    DefaultCache.get fixtureCache ⟨"v1", "Pod", ⟨some "default", "zzz", none⟩⟩
        = .ok ⟨"v1", "Pod", ⟨some "default", "zzz", none⟩⟩
    ∧ DefaultCache.get fixtureCache ⟨"v1", "Service", ⟨some "default", "a", none⟩⟩
        = .error .typeError
    ∧ DefaultCache.get fixtureCache ⟨"v1", "Pod", ⟨some "default", "a", none⟩⟩
        = .ok podA := by
  refine ⟨rfl, rfl, rfl⟩

/-- C9: the claim says `parseGroupVersionKind ∘ groupVersionKindKey` is
the identity on legitimate pairs, including apiVersions of the documented
form `<apiGroup>/<version>`. For `apiVersion = "apps/v1"`,
`kind = "Deployment"` the joined key is `"apps/v1/Deployment"` and the
parser returns only the first two `/`-separated segments:
`{apiVersion: "apps", kind: "v1"}`, not the original pair. -/
theorem parseGroupVersionKind_not_inverse_on_grouped_apiVersion :
    parseGroupVersionKind (groupVersionKindKey ⟨"apps/v1", "Deployment"⟩)
        = ⟨"apps", "v1"⟩
    ∧ parseGroupVersionKind (groupVersionKindKey ⟨"apps/v1", "Deployment"⟩)
        ≠ ⟨"apps/v1", "Deployment"⟩ := by
  decide

/-- C7: on an `ERROR` watch event whose status is `410`/`Expired` the
callback clears the stored resume token and aborts the stream, touching
neither the index nor the listeners; on an `ERROR` event with any other
status it only logs, leaving the whole state unchanged and the stream
running. -/
theorem watch_error_event_policy (gvk : String) (s : DefaultCacheState)
    (st : V1Status) (md : TypeMetadata) (hm : s.metadata gvk = some md) :
    (st.code = some resourceVersionExpiredCode
        ∧ st.reason = some resourceVersionExpiredReason →
      ∃ r, processWatchEvent gvk s (.error st) = .ok r
        ∧ r.state.cache = s.cache
        ∧ r.state.metadata gvk = some ⟨none, md.resourcePath⟩
        ∧ r.aborted = true
        ∧ r.notifications = [])
    ∧ (¬(st.code = some resourceVersionExpiredCode
        ∧ st.reason = some resourceVersionExpiredReason) →
      processWatchEvent gvk s (.error st)
        = .ok ⟨s, false, [], some .watchError⟩) := by
  constructor
  · intro hc
    simp only [processWatchEvent, setLastResourceVersion, hm, if_pos hc]
    exact ⟨_, rfl, rfl, by simp, rfl, rfl⟩
  · intro hc
    simp only [processWatchEvent, if_neg hc]

/-- Witness for `watch_error_event_policy` at concrete inputs: the
hypotheses hold for `fixtureStateSynced`, the `410`/`Expired` status and
a plain disconnect status, and both branch conclusions follow. -/
theorem watch_error_event_policy_witness :
    (fixtureStateSynced.metadata "v1/Pod" = some ⟨none, "/api/v1/pods"⟩)
    ∧ (∃ r, processWatchEvent "v1/Pod" fixtureStateSynced
          (.error ⟨some 410, some "Expired", some "too old"⟩) = .ok r
        ∧ r.state.cache = fixtureStateSynced.cache
        ∧ r.state.metadata "v1/Pod" = some ⟨none, "/api/v1/pods"⟩
        ∧ r.aborted = true
        ∧ r.notifications = [])
    ∧ (processWatchEvent "v1/Pod" fixtureStateSynced
          (.error ⟨some 500, some "InternalError", none⟩)
        = .ok ⟨fixtureStateSynced, false, [], some .watchError⟩) :=
  ⟨rfl,
    (watch_error_event_policy "v1/Pod" fixtureStateSynced
      ⟨some 410, some "Expired", some "too old"⟩ ⟨none, "/api/v1/pods"⟩ rfl).1
      (by exact ⟨rfl, rfl⟩),
    (watch_error_event_policy "v1/Pod" fixtureStateSynced
      ⟨some 500, some "InternalError", none⟩ ⟨none, "/api/v1/pods"⟩ rfl).2
      (by simp [resourceVersionExpiredCode])⟩

/-- C6: for every data event (`ADDED`/`MODIFIED`/`DELETED` — with
`allowWatchBookmarks: false` these are the received events that carry a
resource instance) whose instance carries `resourceVersion = c`, after
the callback runs the stored resume token equals `c`, and every listener
notification for that event already observes the advanced token. -/
theorem token_advanced_before_notify (gvk : String) (s : DefaultCacheState)
    (e : WatchEvent) (o : KubernetesObject) (c : String) (m : TypeIndex)
    (md : TypeMetadata) (ls : List Nat)
    (ho : e.dataObj? = some o)
    (hrv : o.metadata.resourceVersion = some c)
    (hc : s.cache (groupVersionKindKey o.toKind) = some m)
    (hm : s.metadata gvk = some md)
    (hl : s.listeners gvk = some ls) :
    ∃ r, processWatchEvent gvk s e = .ok r
      ∧ (r.state.metadata gvk).bind TypeMetadata.lastResourceVersion = some c
      ∧ ∀ n ∈ r.notifications, n.tokenAtNotify = some c := by
  cases e with
  | added o' =>
    cases (Option.some.injEq .. ▸ ho : o' = o)
    simp only [processWatchEvent, recordObjectAdded, setLastResourceVersion, hc, hm, hl]
    refine ⟨_, rfl, by simp [hrv], ?_⟩
    intro n hn
    simp only [List.mem_map] at hn
    obtain ⟨l, -, rfl⟩ := hn
    simp [hrv]
  | modified o' =>
    cases (Option.some.injEq .. ▸ ho : o' = o)
    simp only [processWatchEvent, recordObjectModified, setLastResourceVersion, hc, hm, hl]
    refine ⟨_, rfl, by simp [hrv], ?_⟩
    intro n hn
    simp only [List.mem_map] at hn
    obtain ⟨l, -, rfl⟩ := hn
    simp [hrv]
  | deleted o' =>
    cases (Option.some.injEq .. ▸ ho : o' = o)
    simp only [processWatchEvent, recordObjectDeleted, setLastResourceVersion, hc, hm, hl]
    refine ⟨_, rfl, by simp [hrv], ?_⟩
    intro n hn
    simp only [List.mem_map] at hn
    obtain ⟨l, -, rfl⟩ := hn
    simp [hrv]
  | bookmark o' => simp [WatchEvent.dataObj?] at ho
  | error st => simp [WatchEvent.dataObj?] at ho

/-- Witness for `token_advanced_before_notify`: adding `podA` (resource
version `"7"`) to the fixture state advances the token to `"7"` before
the listener is invoked. -/
theorem token_advanced_before_notify_witness :
    ((WatchEvent.added podA).dataObj? = some podA
      ∧ podA.metadata.resourceVersion = some "7"
      ∧ fixtureStateSynced.cache (groupVersionKindKey podA.toKind)
          = some TypeIndex.empty
      ∧ fixtureStateSynced.metadata "v1/Pod" = some ⟨none, "/api/v1/pods"⟩
      ∧ fixtureStateSynced.listeners "v1/Pod" = some [0])
    ∧ ∃ r, processWatchEvent "v1/Pod" fixtureStateSynced (.added podA) = .ok r
      ∧ (r.state.metadata "v1/Pod").bind TypeMetadata.lastResourceVersion = some "7"
      ∧ ∀ n ∈ r.notifications, n.tokenAtNotify = some "7" :=
  ⟨⟨rfl, rfl, rfl, rfl, rfl⟩,
    token_advanced_before_notify "v1/Pod" fixtureStateSynced (.added podA) podA "7"
      TypeIndex.empty ⟨none, "/api/v1/pods"⟩ [0] rfl rfl rfl rfl rfl⟩

/-- C8: once the cache has started (`has(this.cacheSync)`), `addListener`
deterministically throws, producing no new state (the listener map and
index of the functional embedding are untouched by a throwing call);
before start it appends the callback at the end of the type's listener
sequence — preserving registration order — and leaves every other type's
listeners unchanged. -/
theorem addListener_rejected_after_start (s : DefaultCacheState)
    (object : ObjectKind) (cb : Nat) :
    (s.cacheSync = true →
      DefaultCache.addListener s object cb = .error .alreadyStarted)
    ∧ (s.cacheSync = false →
      ∃ s', DefaultCache.addListener s object cb = .ok s'
        ∧ s'.listeners (groupVersionKindKey object)
            = some (((s.listeners (groupVersionKindKey object)).getD []) ++ [cb])
        ∧ (∀ g, g ≠ groupVersionKindKey object → s'.listeners g = s.listeners g)
        ∧ s'.cacheSync = false) := by
  constructor
  · intro h
    simp [DefaultCache.addListener, h]
  · intro h
    cases hl : s.listeners (groupVersionKindKey object) with
    | none =>
      simp [DefaultCache.addListener, h, hl]
      exact fun g hg hgg => absurd hgg hg
    | some ls =>
      simp [DefaultCache.addListener, h, hl]
      exact fun g hg hgg => absurd hgg hg

/-- Witness for `addListener_rejected_after_start`: on the started
fixture state the call throws; on the unstarted fixture state the
callback `1` lands behind the already-registered callback `0`. -/
theorem addListener_rejected_after_start_witness :
    (fixtureStateSynced.cacheSync = true
      ∧ DefaultCache.addListener fixtureStateSynced ⟨"v1", "Pod"⟩ 1
          = .error .alreadyStarted)
    ∧ (fixtureState.cacheSync = false
      ∧ ∃ s', DefaultCache.addListener fixtureState ⟨"v1", "Pod"⟩ 1 = .ok s'
        ∧ s'.listeners (groupVersionKindKey ⟨"v1", "Pod"⟩)
            = some (((fixtureState.listeners (groupVersionKindKey ⟨"v1", "Pod"⟩)).getD []) ++ [1])
        ∧ (∀ g, g ≠ groupVersionKindKey ⟨"v1", "Pod"⟩ →
            s'.listeners g = fixtureState.listeners g)
        ∧ s'.cacheSync = false) :=
  ⟨⟨rfl, (addListener_rejected_after_start fixtureStateSynced ⟨"v1", "Pod"⟩ 1).1 rfl⟩,
    ⟨rfl, (addListener_rejected_after_start fixtureState ⟨"v1", "Pod"⟩ 1).2 rfl⟩⟩

/-- C10: `CachedKubeClient.get` consults the remote store exactly when
the cache read failed with `isNotFoundError` (a Kubernetes error whose
body carries code 404); a successful cache read is returned without
remote contact, any other cache failure is rethrown unchanged without
remote contact, and in the fallback case the result is the remote
read's. -/
theorem cachedGet_falls_back_iff_notFound
    (cacheResult remoteResult : Except ErrorValue KubernetesObject) :
    ((CachedKubeClient.get cacheResult remoteResult).2 = true ↔
      ∃ e, cacheResult = .error e ∧ isNotFoundError e = true)
    ∧ (∀ v, cacheResult = .ok v →
        CachedKubeClient.get cacheResult remoteResult = (.ok v, false))
    ∧ (∀ e, cacheResult = .error e → isNotFoundError e = false →
        CachedKubeClient.get cacheResult remoteResult = (.error e, false))
    ∧ (∀ e, cacheResult = .error e → isNotFoundError e = true →
        (CachedKubeClient.get cacheResult remoteResult).1 = remoteResult) := by
  refine ⟨?_, ?_, ?_, ?_⟩
  · cases cacheResult with
    | ok v => simp [CachedKubeClient.get]
    | error e =>
      by_cases hnf : isNotFoundError e = true <;>
        simp [CachedKubeClient.get, hnf]
  · rintro v rfl
    rfl
  · rintro e rfl hnf
    simp [CachedKubeClient.get, hnf]
  · rintro e rfl hnf
    simp [CachedKubeClient.get, hnf]

/-- Witness for `cachedGet_falls_back_iff_notFound`: a cache read failing
with a body-code-404 Kubernetes error falls back to the remote read. -/
theorem cachedGet_falls_back_iff_notFound_witness :
    ((Except.error ⟨some ⟨some 404, some "NotFound", some "not found"⟩⟩ :
        Except ErrorValue KubernetesObject)
      = .error ⟨some ⟨some 404, some "NotFound", some "not found"⟩⟩
      ∧ isNotFoundError ⟨some ⟨some 404, some "NotFound", some "not found"⟩⟩ = true)
    ∧ (CachedKubeClient.get
        (.error ⟨some ⟨some 404, some "NotFound", some "not found"⟩⟩)
        (.ok podA)).1 = .ok podA :=
  ⟨⟨rfl, by decide⟩,
    (cachedGet_falls_back_iff_notFound
      (.error ⟨some ⟨some 404, some "NotFound", some "not found"⟩⟩) (.ok podA)).2.2.2
      ⟨some ⟨some 404, some "NotFound", some "not found"⟩⟩ rfl (by decide)⟩

/-- Appending one event to the stream changes the latest event for a key
exactly when the new event's instance has that key. -/
theorem latestDataEventFor_append (l : List WatchEvent) (e : WatchEvent) (k : String) :
    latestDataEventFor (l ++ [e]) k =
      if e.dataObj?.map namespacedName = some k then some e
      else latestDataEventFor l k := by
  unfold latestDataEventFor
  rw [List.reverse_append]
  simp only [List.reverse_cons, List.reverse_nil, List.nil_append, List.singleton_append]
  by_cases h : e.dataObj?.map namespacedName = some k
  · rw [if_pos h]
    exact List.find?_cons_of_pos _ (decide_eq_true h)
  · rw [if_neg h]
    exact List.find?_cons_of_neg _ (by simpa using h)

/-- Replay after appending an `ADDED` event is an upsert of its object. -/
theorem replayLatestFrom_append_added (m : TypeIndex) (l : List WatchEvent)
    (o : KubernetesObject) :
    replayLatestFrom m (l ++ [.added o]) = (replayLatestFrom m l).insertObj o := by
  funext k
  unfold replayLatestFrom TypeIndex.insertObj
  rw [latestDataEventFor_append]
  by_cases h : k = namespacedName o
  · rw [if_pos (by simp [WatchEvent.dataObj?, h]), if_pos h]
  · rw [if_neg (by simp [WatchEvent.dataObj?]; exact fun hh => h hh.symm), if_neg h]

/-- Replay after appending a `MODIFIED` event is an upsert of its object. -/
theorem replayLatestFrom_append_modified (m : TypeIndex) (l : List WatchEvent)
    (o : KubernetesObject) :
    replayLatestFrom m (l ++ [.modified o]) = (replayLatestFrom m l).insertObj o := by
  funext k
  unfold replayLatestFrom TypeIndex.insertObj
  rw [latestDataEventFor_append]
  by_cases h : k = namespacedName o
  · rw [if_pos (by simp [WatchEvent.dataObj?, h]), if_pos h]
  · rw [if_neg (by simp [WatchEvent.dataObj?]; exact fun hh => h hh.symm), if_neg h]

/-- Replay after appending a `DELETED` event removes its key. -/
theorem replayLatestFrom_append_deleted (m : TypeIndex) (l : List WatchEvent)
    (o : KubernetesObject) :
    replayLatestFrom m (l ++ [.deleted o]) = (replayLatestFrom m l).eraseObj o := by
  funext k
  unfold replayLatestFrom TypeIndex.eraseObj
  rw [latestDataEventFor_append]
  by_cases h : k = namespacedName o
  · rw [if_pos (by simp [WatchEvent.dataObj?, h]), if_pos h]
  · rw [if_neg (by simp [WatchEvent.dataObj?]; exact fun hh => h hh.symm), if_neg h]

/-- Replay of the empty stream changes nothing. -/
theorem replayLatestFrom_nil (m : TypeIndex) : replayLatestFrom m [] = m := by
  funext k
  unfold replayLatestFrom latestDataEventFor
  rfl

/-- Replay from the empty index is the claim's replay formula. -/
theorem replayLatestFrom_empty (events : List WatchEvent) :
    replayLatestFrom TypeIndex.empty events = replayLatest events := by
  funext k
  unfold replayLatestFrom replayLatest
  cases h : latestDataEventFor events k with
  | none => rfl
  | some e => cases e <;> rfl

/-- Invariant of the watch loop on a well-formed state: processing any
finite sequence of data events of the watched type completes without a
thrown exception, leaves the type's index equal to the latest-event
replay over the initial index, keeps a metadata entry present, and never
touches the listener map. -/
theorem processWatchEvents_replay (gvk : String) (events : List WatchEvent) :
    ∀ (s : DefaultCacheState) (m : TypeIndex) (md : TypeMetadata) (ls : List Nat),
      s.cache gvk = some m → s.metadata gvk = some md → s.listeners gvk = some ls →
      (∀ e ∈ events, ∃ o, e.dataObj? = some o ∧ groupVersionKindKey o.toKind = gvk) →
      ∃ s', processWatchEvents gvk s events = .ok s'
        ∧ s'.cache gvk = some (replayLatestFrom m events)
        ∧ (∃ md', s'.metadata gvk = some md')
        ∧ s'.listeners = s.listeners := by
  induction events using List.reverseRecOn with
  | nil =>
    intro s m md ls hc hm hl _
    exact ⟨s, rfl, by rw [replayLatestFrom_nil]; exact hc, ⟨md, hm⟩, rfl⟩
  | append_singleton l e ih =>
    intro s m md ls hc hm hl hdata
    obtain ⟨o, ho, hg⟩ := hdata e (by simp)
    obtain ⟨s₁, hok, hc1, ⟨md₁, hm1⟩, hl1⟩ :=
      ih s m md ls hc hm hl (fun e' he' => hdata e' (by simp [he']))
    have hstep : processWatchEvents gvk s (l ++ [e])
        = watchStep gvk (.ok s₁) e := by
      unfold processWatchEvents
      rw [List.foldl_append]
      rw [show l.foldl (watchStep gvk) (.ok s) = processWatchEvents gvk s l from rfl, hok]
      rfl
    have hls1 : s₁.listeners gvk = some ls := by rw [hl1]; exact hl
    cases e with
    | added o' =>
      have hoo : o' = o := by simpa [WatchEvent.dataObj?] using ho
      subst hoo
      rw [hstep]
      simp only [watchStep, processWatchEvent, recordObjectAdded, setLastResourceVersion,
        hg, hc1, hm1, hls1, Except.map]
      refine ⟨_, rfl, ?_, ?_, ?_⟩
      · rw [replayLatestFrom_append_added]
        simp [CacheData.setType]
      · simp
      · exact hl1
    | modified o' =>
      have hoo : o' = o := by simpa [WatchEvent.dataObj?] using ho
      subst hoo
      rw [hstep]
      simp only [watchStep, processWatchEvent, recordObjectModified, setLastResourceVersion,
        hg, hc1, hm1, hls1, Except.map]
      refine ⟨_, rfl, ?_, ?_, ?_⟩
      · rw [replayLatestFrom_append_modified]
        simp [CacheData.setType]
      · simp
      · exact hl1
    | deleted o' =>
      have hoo : o' = o := by simpa [WatchEvent.dataObj?] using ho
      subst hoo
      rw [hstep]
      simp only [watchStep, processWatchEvent, recordObjectDeleted, setLastResourceVersion,
        hg, hc1, hm1, hls1, Except.map]
      refine ⟨_, rfl, ?_, ?_, ?_⟩
      · rw [replayLatestFrom_append_deleted]
        simp [CacheData.setType]
      · simp
      · exact hl1
    | bookmark o' => simp [WatchEvent.dataObj?] at ho
    | error st => simp [WatchEvent.dataObj?] at ho

/-- C5: applying any finite sequence of `ADDED`/`MODIFIED`/`DELETED`
events of the watched type to a state whose index for that type is
initially empty yields exactly the latest-event-per-namespaced-name
replay, with keys whose latest event is `DELETED` absent. The metadata
and listener entries are present whenever the watch callback runs: the
watch is only opened after `initializeCache` stored the metadata, and
only for types registered through `addListener`, which created their
listener list. -/
theorem index_replay_latest_per_key (gvk : String) (s : DefaultCacheState)
    (events : List WatchEvent) (md : TypeMetadata) (ls : List Nat)
    (hc : s.cache gvk = some TypeIndex.empty)
    (hm : s.metadata gvk = some md)
    (hl : s.listeners gvk = some ls)
    (hdata : ∀ e ∈ events, ∃ o, e.dataObj? = some o ∧ groupVersionKindKey o.toKind = gvk) :
    ∃ s', processWatchEvents gvk s events = .ok s'
      ∧ s'.cache gvk = some (replayLatest events) := by
  obtain ⟨s', h1, h2, -, -⟩ :=
    processWatchEvents_replay gvk events s TypeIndex.empty md ls hc hm hl hdata
  exact ⟨s', h1, by rw [h2, replayLatestFrom_empty]⟩

/-- Witness for `index_replay_latest_per_key`: running the example
sequence `ADD(a)`, `MOD(a)`, `ADD(b)`, `DELETE(a)` on the fixture state;
the replayed index, evaluated, holds `b` and not `a`. -/
theorem index_replay_latest_per_key_witness :
    (fixtureStateSynced.cache "v1/Pod" = some TypeIndex.empty
      ∧ fixtureStateSynced.metadata "v1/Pod" = some ⟨none, "/api/v1/pods"⟩
      ∧ fixtureStateSynced.listeners "v1/Pod" = some [0]
      ∧ ∀ e ∈ fixtureEvents,
          ∃ o, e.dataObj? = some o ∧ groupVersionKindKey o.toKind = "v1/Pod")
    ∧ (∃ s', processWatchEvents "v1/Pod" fixtureStateSynced fixtureEvents = .ok s'
        ∧ s'.cache "v1/Pod" = some (replayLatest fixtureEvents))
    ∧ replayLatest fixtureEvents "default/a" = none
    ∧ replayLatest fixtureEvents "default/b" = some podB :=
  ⟨⟨rfl, rfl, rfl, by
      intro e he
      simp only [fixtureEvents, List.mem_cons, List.not_mem_nil, or_false] at he
      rcases he with rfl | rfl | rfl | rfl <;> exact ⟨_, rfl, rfl⟩⟩,
    index_replay_latest_per_key "v1/Pod" fixtureStateSynced fixtureEvents
      ⟨none, "/api/v1/pods"⟩ [0] rfl rfl rfl
      (by
        intro e he
        simp only [fixtureEvents, List.mem_cons, List.not_mem_nil, or_false] at he
        rcases he with rfl | rfl | rfl | rfl <;> exact ⟨_, rfl, rfl⟩),
    by decide, by decide⟩

end ControllerRuntime
